import Mathlib

/-!
Verification of the softwareventures/result module (src/index.ts).

The module defines a two-variant sum type, with Ok holding a success value
and Err holding a failure reason, together with constructors, predicates,
unwrapping functions and functor/monad combinators. This file gives a
shallow embedding of those operations and proves the documented properties.

Modelling conventions:

* The closed union of the Ok and Err classes becomes the inductive type
  Result with constructors Result.Ok and Result.Err. The instanceof checks
  of the source become pattern matches on the constructor.
* Functions that may throw return an Except whose error component is a
  Thrown value. Thrown.thrownErr r stands for the Err instance with reason
  r being thrown directly, as in the unwrapOk source line which throws the
  result itself; Thrown.typeError m stands for a freshly constructed
  TypeError with message m, as thrown by unwrapErr.
* User supplied callbacks in TypeScript may perform side effects. To state
  that a combinator never invokes its callback on the short-circuit path,
  each combinator also has a state-passing variant (suffix M) in which the
  callback threads an explicit state. The variants mirror the source branch
  for branch; an untouched state on the Err (resp. Ok) path witnesses that
  the callback was never called there.
* The toString method of Err inspects a JavaScript runtime value: whether
  it is loosely equal to null, whether its toString is inherited from
  Object.prototype, and its string conversion. JSValue models exactly the
  distinctions that method observes.
* TypeScript union types such as TInReason | TOutReason are erased at
  runtime; the embedding instantiates both sides at one Lean type, which
  preserves the runtime behaviour of every branch.
-/

namespace SVResult

/-- Model of a JavaScript runtime value, sufficient for the observations
made by the toString method of Err: loose comparison with null, whether the
value inherits the default Object.prototype.toString, and the result of the
standard string conversion. plainObject is an object whose toString is the
inherited default; objectWithToString is an object with its own toString
returning the given string. -/
inductive JSValue : Type
  | jsNull
  | jsUndefined
  | jsBoolean (b : Bool)
  | jsNumber (n : Int)
  | jsString (s : String)
  | plainObject
  | objectWithToString (s : String)
deriving DecidableEq, Repr

/-- JavaScript loose equality with null (the expression reason == null in
the source): true exactly for null and undefined. -/
def JSValue.eqNullLoose : JSValue → Bool
  | .jsNull => true
  | .jsUndefined => true
  | _ => false

/-- Whether the toString of the value is Object.prototype.toString (the
comparison reason.toString === Object.prototype.toString in the source).
Primitive values and objects with their own toString have a different
toString function, so only a plain object satisfies it. -/
def JSValue.hasDefaultToString : JSValue → Bool
  | .plainObject => true
  | _ => false

/-- The standard JavaScript string conversion String(value). -/
def JSValue.jsToString : JSValue → String
  | .jsNull => "null"
  | .jsUndefined => "undefined"
  | .jsBoolean b => if b then "true" else "false"
  | .jsNumber n => toString n
  | .jsString s => s
  | .plainObject => "[object Object]"
  | .objectWithToString s => s

/-- The closed sum type Result<T, E> = Ok<T> | Err<E> from the source. Ok
holds the success value, Err holds the failure reason. -/
inductive Result (T E : Type) : Type
  | Ok (value : T) : Result T E
  | Err (reason : E) : Result T E
deriving DecidableEq, Repr

/-- The factory function ok: wraps a value in the Ok variant. -/
def ok {T E : Type} (value : T) : Result T E :=
  Result.Ok value

/-- The factory function err: wraps a reason in the Err variant. -/
def err {T E : Type} (reason : E) : Result T E :=
  Result.Err reason

/-- The toString method of the Err class, over the modelled reason. The
source returns the literal text Err when the reason is loosely equal to
null or its toString is the inherited Object.prototype.toString, and
otherwise returns String(reason). -/
def errToString (reason : JSValue) : String :=
  if reason.eqNullLoose || reason.hasDefaultToString then "Err"
  else reason.jsToString

/-- The predicate isOk: true exactly when the result is an instance of Ok. -/
def isOk {T E : Type} : Result T E → Bool
  | .Ok _ => true
  | .Err _ => false

/-- The predicate isErr: true exactly when the result is an instance of
Err. -/
def isErr {T E : Type} : Result T E → Bool
  | .Ok _ => false
  | .Err _ => true

/-- A value thrown by an unwrapping function. thrownErr r is the Err
instance with reason r thrown directly; typeError m is a TypeError
constructed with message m. -/
inductive Thrown (E : Type) : Type
  | thrownErr (reason : E)
  | typeError (message : String)
deriving DecidableEq, Repr

/-- The function unwrapOk: returns the success value of an Ok, and throws
the Err result itself otherwise (the source line throw result). -/
def unwrapOk {T E : Type} : Result T E → Except (Thrown E) T
  | .Ok v => .ok v
  | .Err r => .error (.thrownErr r)

/-- The function unwrapErr: returns the failure reason of an Err, and
throws new TypeError with message Err expected when applied to an Ok. -/
def unwrapErr {T E : Type} : Result T E → Except (Thrown E) E
  | .Ok _ => .error (.typeError "Err expected")
  | .Err r => .ok r

/-- The function bindResult: applies fn to the success value of an Ok, and
returns the Err unchanged otherwise. -/
def bindResult {T U E : Type} (result : Result T E) (fn : T → Result U E) :
    Result U E :=
  match result with
  | .Ok v => fn v
  | .Err r => .Err r

/-- State-passing variant of bindResult in which the callback threads an
explicit state, modelling callbacks with side effects. -/
def bindResultM {T U E S : Type} (result : Result T E)
    (fn : T → S → Result U E × S) (s : S) : Result U E × S :=
  match result with
  | .Ok v => fn v s
  | .Err r => (.Err r, s)

/-- The function mapOk: applies fn to the success value of an Ok and wraps
the outcome with ok, and returns the Err unchanged otherwise. -/
def mapOk {T U E : Type} (result : Result T E) (fn : T → U) : Result U E :=
  match result with
  | .Ok v => ok (fn v)
  | .Err r => .Err r

/-- State-passing variant of mapOk in which the callback threads an
explicit state, modelling callbacks with side effects. -/
def mapOkM {T U E S : Type} (result : Result T E) (fn : T → S → U × S)
    (s : S) : Result U E × S :=
  match result with
  | .Ok v =>
    match fn v s with
    | (u, t) => (ok u, t)
  | .Err r => (.Err r, s)

/-- The function mapErr: applies fn to the failure reason of an Err and
wraps the outcome with err, and returns the Ok unchanged otherwise. -/
def mapErr {T E F : Type} (result : Result T E) (fn : E → F) : Result T F :=
  match result with
  | .Ok v => .Ok v
  | .Err r => err (fn r)

/-- State-passing variant of mapErr in which the callback threads an
explicit state, modelling callbacks with side effects. -/
def mapErrM {T E F S : Type} (result : Result T E) (fn : E → S → F × S)
    (s : S) : Result T F × S :=
  match result with
  | .Ok v => (.Ok v, s)
  | .Err r =>
    match fn r s with
    | (f, t) => (err f, t)

/-- The function unwrapOkOr: returns the success value of an Ok and the
supplied default otherwise. It is a total function: no branch throws. -/
def unwrapOkOr {T E : Type} (result : Result T E) (defaultValue : T) : T :=
  match result with
  | .Ok v => v
  | .Err _ => defaultValue

/-- The function resultFrom: the behaviour of the thunk fn is a value of
Except C T, where Except.ok v models a normal return of v and
Except.error c models fn throwing the value c. A normal return yields
ok of the value; a thrown value is passed through catchFn and wrapped with
err, mirroring the try/catch of the source. -/
def resultFrom {T E C : Type} (fn : Except C T) (catchFn : C → E) :
    Result T E :=
  match fn with
  | .ok v => ok v
  | .error c => err (catchFn c)

/-- The default catchFn of resultFrom when the caller omits the second
argument: a function ignoring the caught value and returning null. -/
def defaultCatchFn {C : Type} : C → JSValue := fun _ => JSValue.jsNull

/-- State-passing variant of resultFrom in which the thunk fn threads an
explicit state, modelling a thunk with side effects; its state effect
occurring shows that resultFrom invokes fn. -/
def resultFromM {T E C S : Type} (fn : S → Except C T × S) (catchFn : C → E)
    (s : S) : Result T E × S :=
  match fn s with
  | (.ok v, t) => (ok v, t)
  | (.error c, t) => (err (catchFn c), t)

/-- C1: for every value v, isOk (ok v) is true, isErr (ok v) is false and
unwrapOk (ok v) returns v; dually, for every reason r, isOk (err r) is
false, isErr (err r) is true and unwrapErr (err r) returns r. -/
theorem c1_construct_inspect_unwrap {T E : Type} (v : T) (r : E) :
    isOk (ok v : Result T E) = true ∧
    isErr (ok v : Result T E) = false ∧
    unwrapOk (ok v : Result T E) = Except.ok v ∧
    isOk (err r : Result T E) = false ∧
    isErr (err r : Result T E) = true ∧
    unwrapErr (err r : Result T E) = Except.ok r :=
  ⟨rfl, rfl, rfl, rfl, rfl, rfl⟩

/-- C2: mapOk maps the success value of an Ok and returns an Err with its
reason unchanged, never invoking the callback on the Err path; dually,
mapErr maps the failure reason of an Err and returns an Ok with its value
unchanged, never invoking the callback on the Ok path. The state-passing
conjuncts show that the callback state is untouched on the short-circuit
path, so the callback is never invoked there. -/
theorem c2_mapOk_mapErr {T U E F : Type} (v : T) (r : E) (f : T → U)
    (g : E → F) :
    mapOk (ok v : Result T E) f = ok (f v) ∧
    mapOk (err r : Result T E) f = err r ∧
    mapErr (err r : Result T E) g = err (g r) ∧
    mapErr (ok v : Result T E) g = ok v ∧
    (∀ (fM : T → Nat → U × Nat) (s : Nat),
      mapOkM (err r : Result T E) fM s = (err r, s)) ∧
    (∀ (gM : E → Nat → F × Nat) (s : Nat),
      mapErrM (ok v : Result T E) gM s = (ok v, s)) :=
  ⟨rfl, rfl, rfl, rfl, fun _ _ => rfl, fun _ _ => rfl⟩

/-- C3: bindResult satisfies monad left identity, bindResult (ok v) f
equals f v, and short-circuits on failure: bindResult (err r) f returns
err r unchanged, and the untouched state of the state-passing variant
shows that f is never invoked on that path. -/
theorem c3_bindResult_left_identity_short_circuit {T U E : Type} (v : T)
    (r : E) (f : T → Result U E) :
    bindResult (ok v) f = f v ∧
    bindResult (err r : Result T E) f = err r ∧
    (∀ (fM : T → Nat → Result U E × Nat) (s : Nat),
      bindResultM (err r : Result T E) fM s = (err r, s)) :=
  ⟨rfl, rfl, fun _ _ => rfl⟩

/-- C4: for every Err result, unwrapOk raises, and the raised value is the
Err instance itself, modelled by the Thrown.thrownErr constructor carrying
the reason of that very Err, not a freshly wrapped error. -/
theorem c4_unwrapOk_raises_err_itself {T E : Type} (r : E) :
    unwrapOk (err r : Result T E) = Except.error (Thrown.thrownErr r) ∧
    ∀ m : String,
      (Except.error (Thrown.thrownErr r) : Except (Thrown E) T) ≠
        Except.error (Thrown.typeError m) :=
  ⟨rfl, fun _ h => Thrown.noConfusion (Except.error.inj h)⟩

/-- C5: for every Ok result, unwrapErr raises a TypeError with message
Err expected, a programmer-error signal distinct from every thrown Err
instance (hence not the Ok result itself nor a represented failure). -/
theorem c5_unwrapErr_raises_type_error {T E : Type} (v : T) :
    unwrapErr (ok v : Result T E) =
      Except.error (Thrown.typeError "Err expected") ∧
    ∀ r : E, (Thrown.typeError "Err expected" : Thrown E) ≠
      Thrown.thrownErr r :=
  ⟨rfl, fun _ h => Thrown.noConfusion h⟩

/-- C6: resultFrom invokes fn (its state effect occurs on both paths of
the state-passing variant); a normal return of v yields ok v, a thrown
value c yields err (catchFn c), and with the default catchFn a throwing fn
yields err null. -/
theorem c6_resultFrom {T E C : Type} (v : T) (c : C) (catchFn : C → E) :
    resultFrom (Except.ok v) catchFn = (ok v : Result T E) ∧
    resultFrom (Except.error c) catchFn = (err (catchFn c) : Result T E) ∧
    resultFrom (Except.error c) defaultCatchFn =
      (err JSValue.jsNull : Result T JSValue) ∧
    (∀ s : Nat,
      (resultFromM (fun n => ((Except.ok v : Except C T), n + 1)) catchFn
        s).2 = s + 1) ∧
    (∀ s : Nat,
      (resultFromM (fun n => ((Except.error c : Except C T), n + 1)) catchFn
        s).2 = s + 1) :=
  ⟨rfl, rfl, rfl, fun _ => rfl, fun _ => rfl⟩

/-- C7: unwrapOkOr returns the success value when the result is Ok and the
supplied default when it is Err; being a total function into T, it never
raises. -/
theorem c7_unwrapOkOr {T E : Type} (v : T) (r : E) (d : T) :
    unwrapOkOr (ok v : Result T E) d = v ∧
    unwrapOkOr (err r : Result T E) d = d :=
  ⟨rfl, rfl⟩

/-- C8: the string rendering of an Err is the literal text Err when the
reason is null, undefined or an object with only the inherited default
toString; otherwise it is the own string form of the reason, for example
disk full for err of the string disk full. -/
theorem c8_errToString :
    errToString JSValue.jsNull = "Err" ∧
    errToString JSValue.jsUndefined = "Err" ∧
    errToString JSValue.plainObject = "Err" ∧
    (∀ s : String, errToString (JSValue.jsString s) = s) ∧
    (∀ s : String, errToString (JSValue.objectWithToString s) = s) ∧
    (∀ n : Int, errToString (JSValue.jsNumber n) =
      (JSValue.jsNumber n).jsToString) ∧
    errToString (JSValue.jsString "disk full") = "disk full" :=
  ⟨rfl, rfl, rfl, fun _ => rfl, fun _ => rfl, fun _ => rfl, rfl⟩

/-- C9: for every Result, exactly one of isOk and isErr is true: the two
predicates are mutually exclusive and jointly exhaustive, and since every
operation of the module produces a value of the closed Result type, this
holds for every result any operation produces. -/
theorem c9_isOk_isErr_exclusive_exhaustive {T E : Type}
    (result : Result T E) :
    (isOk result = true ∧ isErr result = false) ∨
    (isOk result = false ∧ isErr result = true) := by
  cases result with
  | Ok v => exact Or.inl ⟨rfl, rfl⟩
  | Err r => exact Or.inr ⟨rfl, rfl⟩

/-- C10: bindResult satisfies monad right identity: for every Result,
binding with the ok constructor returns a structurally equal Result, same
variant tag and same payload. -/
theorem c10_bindResult_right_identity {T E : Type} (result : Result T E) :
    bindResult result ok = result := by
  cases result with
  | Ok v => rfl
  | Err r => rfl

end SVResult
